import Mathlib

/-
Shallow embedding of `companies_house/src/companies_house_api_client.py`.

The client composes HTTP GET requests: it joins non-None path segments onto a
host URL, attaches an `Authorization` header, and forwards a keyword-argument
mapping as query parameters.  Effects are made explicit:

* the `requests` library is an abstract transport `oracle : Request → Response`;
* the requests issued by a call are logged in a trace (state passing);
* a Python `raise ValueError` is an `Except.error`.
-/

/-- A scalar value as passed in a Python keyword argument: a string or an int. -/
inductive PyVal where
  | vstr (s : String)
  | vint (n : Int)
deriving DecidableEq, Repr

/-- An HTTP request exactly as handed to `requests.request`: the HTTP method,
the fully joined URL, the header dictionary, and the raw params dictionary
(values still optional; the library drops the `None` ones). -/
structure Request where
  method : String
  url : String
  headers : List (String × String)
  params : List (String × Option PyVal)
deriving DecidableEq, Repr

/-- An opaque HTTP response as returned by the `requests` library. -/
structure Response where
  status_code : Nat
  resp_headers : List (String × String)
  body : String
deriving DecidableEq, Repr

/-- Model of the `requests` library's treatment of the params dictionary: pairs
whose value is `None` are omitted from the outgoing query string; the rest are
sent in order. -/
def queryPairs (params : List (String × Option PyVal)) : List (String × PyVal) :=
  params.filterMap (fun p => (p.2).map (fun v => (p.1, v)))

/-- The keys actually present in the outgoing query string. -/
def queryKeys (params : List (String × Option PyVal)) : List String :=
  (queryPairs params).map Prod.fst

/-- The process environment: the two variables `__init__` reads via
`os.getenv`, each possibly unset. -/
structure Env where
  host : Option String
  api_key : Option String
deriving DecidableEq, Repr

/-- Python truthiness of an optional string (`not self.host`): `None` and the
empty string are falsy, every other string truthy. -/
def pyTruthy : Option String → Bool
  | none => false
  | some s => !(s == "")

/-- The `CompaniesHouse` object: the fields assigned in `__init__`.  `host` and
`api_key` keep the `Optional[str]` type `os.getenv` gives them. -/
structure CompaniesHouse where
  host : Option String
  api_key : Option String
  headers : List (String × String)
deriving DecidableEq, Repr

/-- `CompaniesHouse.__init__`: store both environment reads, raise
`ValueError` if the host or the key is falsy (unset or empty), otherwise build
the `Authorization` header from the key.  In the success branch the guard has
established `api_key = some k`, so `getD` merely projects the string Python
stores in the header dictionary. -/
def CompaniesHouse.init (env : Env) : Except String CompaniesHouse :=
  if pyTruthy env.host = false then Except.error "KVK_HOST is not set"
  else if pyTruthy env.api_key = false then Except.error "KVK_APIKEY is not set"
  else Except.ok (CompaniesHouse.mk env.host env.api_key
    [("Authorization", env.api_key.getD "")])

/-- Result of one Python method call under the state-passing translation: the
object the methods were called on (unchanged unless a method reassigned a
field), the log of HTTP requests issued, and the returned response or the
raised error. -/
structure Outcome where
  client : CompaniesHouse
  trace : List Request
  result : Except String Response
deriving Repr

/-- The URL built in `__send_request`:
`self.host + ''.join(['/' + r for r in res if r is not None])`. -/
def joinedUrl (host : String) (res : List (Option String)) : String :=
  host ++ String.join (res.filterMap (fun r => r.map (fun s => "/" ++ s)))

/-- `CompaniesHouse.__send_request`: raise if `self.host is None`, otherwise
join the non-None segments onto the host, issue one request through the
transport with `self.headers` and the params dictionary, and return the
response untouched. -/
def CompaniesHouse.sendRequest (oracle : Request → Response) (c : CompaniesHouse)
    (tr : List Request) (request_type : String) (res : List (Option String))
    (params : List (String × Option PyVal)) : Outcome :=
  match c.host with
  | none => Outcome.mk c tr (Except.error "HOST is not set")
  | some host =>
    let req := Request.mk request_type (joinedUrl host res) c.headers params
    Outcome.mk c (tr ++ [req]) (Except.ok (oracle req))

namespace APIpaths

def company : String := "company"

def officers : String := "officers"

def registers : String := "registers"

def charges : String := "charges"

def exemptions : String := "exemptions"

def filing_history : String := "filing-history"

def insolvency : String := "insolvency"

def disqualifications_corporate : String := "disqualified-officers/corporate"

def disqualifications_natulal : String := "disqualified-officers/natural"

def uk_establishments : String := "uk-establishments"

def persons_with_significant_control : String := "persons-with-significant-control"

def persons_with_significant_control_statements : String :=
  "persons-with-significant-control-statements"

def super_secure : String := "super-secure"

def super_secure_beneficial_owner : String := "super-secure-beneficial-owner"

def legal_person : String := "legal-person"

def legal_person_beneficial_owner : String := "legal-person-beneficial-owner"

def individual : String := "individual"

def individual_beneficial_owner : String := "individual-beneficial-owner"

def corporate_entity : String := "corporate-entity"

def corporate_entity_beneficial_owner : String := "corporate-entity-beneficial-owner"

def appointments : String := "appointments"

def advanced_company_search : String := "advanced-search/companies"

def search_all : String := "search"

def search_companies : String := "search/companies"

def search_officers : String := "search/officers"

def search_disqualified_officers : String := "search/disqualified-officers"

def search_companies_alphabetically : String := "alphabetic-search/companies"

def search_dissolved_companies : String := "dissolved-search/companies"

end APIpaths

def CompaniesHouse.get_company_profile (oracle : Request → Response)
    (c : CompaniesHouse) (tr : List Request) (company_number : String) : Outcome :=
  CompaniesHouse.sendRequest oracle c tr "GET"
    [some APIpaths.company, some company_number] []

def CompaniesHouse.advanced_company_search (oracle : Request → Response)
    (c : CompaniesHouse) (tr : List Request)
    (company_name_includes company_name_excludes company_status company_subtype
      company_type dissolved_from dissolved_to incorporated_from incorporated_to
      location sic_codes : Option String)
    (size start_index : Option Int) : Outcome :=
  CompaniesHouse.sendRequest oracle c tr "GET"
    [some APIpaths.advanced_company_search]
    [("company_name_includes", company_name_includes.map PyVal.vstr),
     ("company_name_excludes", company_name_excludes.map PyVal.vstr),
     ("company_status", company_status.map PyVal.vstr),
     ("company_subtype", company_subtype.map PyVal.vstr),
     ("company_type", company_type.map PyVal.vstr),
     ("dissolved_from", dissolved_from.map PyVal.vstr),
     ("dissolved_to", dissolved_to.map PyVal.vstr),
     ("incorporated_from", incorporated_from.map PyVal.vstr),
     ("incorporated_to", incorporated_to.map PyVal.vstr),
     ("location", location.map PyVal.vstr),
     ("sic_codes", sic_codes.map PyVal.vstr),
     ("size", size.map PyVal.vint),
     ("start_index", start_index.map PyVal.vint)]

def CompaniesHouse.search_all (oracle : Request → Response)
    (c : CompaniesHouse) (tr : List Request) (q : String)
    (items_per_page start_index : Option Int) : Outcome :=
  CompaniesHouse.sendRequest oracle c tr "GET" [some APIpaths.search_all]
    [("q", some (PyVal.vstr q)),
     ("items_per_page", items_per_page.map PyVal.vint),
     ("start_index", start_index.map PyVal.vint)]

def CompaniesHouse.search_companies (oracle : Request → Response)
    (c : CompaniesHouse) (tr : List Request) (q : String)
    (items_per_page start_index : Option Int)
    (restrictions : Option String) : Outcome :=
  CompaniesHouse.sendRequest oracle c tr "GET" [some APIpaths.search_companies]
    [("q", some (PyVal.vstr q)),
     ("items_per_page", items_per_page.map PyVal.vint),
     ("start_index", start_index.map PyVal.vint),
     ("restrictions", restrictions.map PyVal.vstr)]

def CompaniesHouse.search_officers (oracle : Request → Response)
    (c : CompaniesHouse) (tr : List Request) (q : String)
    (items_per_page start_index : Option Int) : Outcome :=
  CompaniesHouse.sendRequest oracle c tr "GET" [some APIpaths.search_officers]
    [("q", some (PyVal.vstr q)),
     ("items_per_page", items_per_page.map PyVal.vint),
     ("start_index", start_index.map PyVal.vint)]

def CompaniesHouse.search_disqualified_officers (oracle : Request → Response)
    (c : CompaniesHouse) (tr : List Request) (q : String)
    (items_per_page start_index : Option Int) : Outcome :=
  CompaniesHouse.sendRequest oracle c tr "GET"
    [some APIpaths.search_disqualified_officers]
    [("q", some (PyVal.vstr q)),
     ("items_per_page", items_per_page.map PyVal.vint),
     ("start_index", start_index.map PyVal.vint)]

def CompaniesHouse.search_companies_alphabetically (oracle : Request → Response)
    (c : CompaniesHouse) (tr : List Request) (q : String)
    (search_above search_below size : Option String) : Outcome :=
  CompaniesHouse.sendRequest oracle c tr "GET"
    [some APIpaths.search_companies_alphabetically]
    [("q", some (PyVal.vstr q)),
     ("search_above", search_above.map PyVal.vstr),
     ("search_below", search_below.map PyVal.vstr),
     ("size", size.map PyVal.vstr)]

def CompaniesHouse.search_dissolved_companies (oracle : Request → Response)
    (c : CompaniesHouse) (tr : List Request) (q search_type : String)
    (search_above search_below size : Option String)
    (start_index : Option Int) : Outcome :=
  CompaniesHouse.sendRequest oracle c tr "GET"
    [some APIpaths.search_dissolved_companies]
    [("q", some (PyVal.vstr q)),
     ("search_type", some (PyVal.vstr search_type)),
     ("search_above", search_above.map PyVal.vstr),
     ("search_below", search_below.map PyVal.vstr),
     ("size", size.map PyVal.vstr),
     ("start_index", start_index.map PyVal.vint)]

def CompaniesHouse.get_officers (oracle : Request → Response)
    (c : CompaniesHouse) (tr : List Request) (company_number : String)
    (items_per_page : Option Int) (register_type register_view : Option String)
    (start_index : Option Int) (order_by : Option String) : Outcome :=
  CompaniesHouse.sendRequest oracle c tr "GET"
    [some APIpaths.company, some company_number, some APIpaths.officers]
    [("items_per_page", items_per_page.map PyVal.vint),
     ("register_type", register_type.map PyVal.vstr),
     ("register_view", register_view.map PyVal.vstr),
     ("start_index", start_index.map PyVal.vint),
     ("order_by", order_by.map PyVal.vstr)]

def CompaniesHouse.get_company_officer_appointment (oracle : Request → Response)
    (c : CompaniesHouse) (tr : List Request)
    (company_number officer_id appointment_id : String) : Outcome :=
  CompaniesHouse.sendRequest oracle c tr "GET"
    [some APIpaths.company, some company_number, some APIpaths.officers,
     some officer_id, some APIpaths.appointments, some appointment_id] []

def CompaniesHouse.get_company_registers (oracle : Request → Response)
    (c : CompaniesHouse) (tr : List Request) (company_number : String) : Outcome :=
  CompaniesHouse.sendRequest oracle c tr "GET"
    [some APIpaths.company, some company_number, some APIpaths.registers] []

def CompaniesHouse.get_comapany_charges (oracle : Request → Response)
    (c : CompaniesHouse) (tr : List Request) (company_number : String) : Outcome :=
  CompaniesHouse.sendRequest oracle c tr "GET"
    [some APIpaths.company, some company_number, some APIpaths.charges] []

def CompaniesHouse.get_company_charge (oracle : Request → Response)
    (c : CompaniesHouse) (tr : List Request)
    (company_number charge_id : String) : Outcome :=
  CompaniesHouse.sendRequest oracle c tr "GET"
    [some APIpaths.company, some company_number, some company_number,
     some APIpaths.charges, some charge_id] []

def CompaniesHouse.get_company_filing_history (oracle : Request → Response)
    (c : CompaniesHouse) (tr : List Request) (company_number : String)
    (category : Option String) (items_per_page start_index : Option Int) : Outcome :=
  CompaniesHouse.sendRequest oracle c tr "GET"
    [some APIpaths.company, some company_number, some APIpaths.filing_history]
    [("category", category.map PyVal.vstr),
     ("items_per_page", items_per_page.map PyVal.vint),
     ("start_index", start_index.map PyVal.vint)]

def CompaniesHouse.get_company_filing_history_item (oracle : Request → Response)
    (c : CompaniesHouse) (tr : List Request)
    (company_number transaction_id : String) : Outcome :=
  CompaniesHouse.sendRequest oracle c tr "GET"
    [some APIpaths.company, some company_number, some APIpaths.filing_history,
     some transaction_id] []

def CompaniesHouse.get_company_insolvency_information (oracle : Request → Response)
    (c : CompaniesHouse) (tr : List Request) (company_number : String) : Outcome :=
  CompaniesHouse.sendRequest oracle c tr "GET"
    [some APIpaths.company, some company_number, some APIpaths.insolvency] []

def CompaniesHouse.get_company_exemptions_information (oracle : Request → Response)
    (c : CompaniesHouse) (tr : List Request) (company_number : String) : Outcome :=
  CompaniesHouse.sendRequest oracle c tr "GET"
    [some APIpaths.company, some company_number, some APIpaths.exemptions] []

def CompaniesHouse.get_cooporate_officer_disqualifications (oracle : Request → Response)
    (c : CompaniesHouse) (tr : List Request) (officer_id : String) : Outcome :=
  CompaniesHouse.sendRequest oracle c tr "GET"
    [some APIpaths.officers, some APIpaths.disqualifications_corporate,
     some officer_id] []

def CompaniesHouse.get_natural_officer_disqualifications (oracle : Request → Response)
    (c : CompaniesHouse) (tr : List Request) (officer_id : String) : Outcome :=
  CompaniesHouse.sendRequest oracle c tr "GET"
    [some APIpaths.officers, some APIpaths.disqualifications_natulal,
     some officer_id] []

def CompaniesHouse.get_officer_appointments (oracle : Request → Response)
    (c : CompaniesHouse) (tr : List Request) (officer_id : String)
    (items_per_page start_index : Option Int) : Outcome :=
  CompaniesHouse.sendRequest oracle c tr "GET"
    [some APIpaths.officers, some officer_id, some APIpaths.appointments]
    [("items_per_page", items_per_page.map PyVal.vint),
     ("start_index", start_index.map PyVal.vint)]

def CompaniesHouse.get_company_uk_enstablishment (oracle : Request → Response)
    (c : CompaniesHouse) (tr : List Request) (company_number : String) : Outcome :=
  CompaniesHouse.sendRequest oracle c tr "GET"
    [some APIpaths.company, some company_number, some APIpaths.uk_establishments] []

def CompaniesHouse.get_persons_with_significant_control (oracle : Request → Response)
    (c : CompaniesHouse) (tr : List Request) (company_number : String)
    (items_per_page start_index register_view : Option String) : Outcome :=
  CompaniesHouse.sendRequest oracle c tr "GET"
    [some APIpaths.company, some company_number,
     some APIpaths.persons_with_significant_control]
    [("items_per_page", items_per_page.map PyVal.vstr),
     ("start_index", start_index.map PyVal.vstr),
     ("register_view", register_view.map PyVal.vstr)]

def CompaniesHouse.get_persons_with_significant_control_statements (oracle : Request → Response)
    (c : CompaniesHouse) (tr : List Request) (company_number : String)
    (items_per_page start_index register_view : Option String) : Outcome :=
  CompaniesHouse.sendRequest oracle c tr "GET"
    [some APIpaths.company, some company_number,
     some APIpaths.persons_with_significant_control_statements]
    [("items_per_page", items_per_page.map PyVal.vstr),
     ("start_index", start_index.map PyVal.vstr),
     ("register_view", register_view.map PyVal.vstr)]

def CompaniesHouse.get_the_super_secure_person_with_significant_control
    (oracle : Request → Response) (c : CompaniesHouse) (tr : List Request)
    (company_number super_secure_id : String) : Outcome :=
  CompaniesHouse.sendRequest oracle c tr "GET"
    [some APIpaths.company, some company_number,
     some APIpaths.persons_with_significant_control, some super_secure_id] []

def CompaniesHouse.get_the_super_secure_beneficial_owner (oracle : Request → Response)
    (c : CompaniesHouse) (tr : List Request)
    (company_number super_secure_id : String) : Outcome :=
  CompaniesHouse.sendRequest oracle c tr "GET"
    [some APIpaths.company, some company_number,
     some APIpaths.super_secure_beneficial_owner, some super_secure_id] []

def CompaniesHouse.get_person_with_significant_control_statement
    (oracle : Request → Response) (c : CompaniesHouse) (tr : List Request)
    (company_number statement_id : String) : Outcome :=
  CompaniesHouse.sendRequest oracle c tr "GET"
    [some APIpaths.company, some company_number,
     some APIpaths.persons_with_significant_control_statements,
     some statement_id] []

def CompaniesHouse.get_legal_person_with_significant_control
    (oracle : Request → Response) (c : CompaniesHouse) (tr : List Request)
    (company_number psc_id : String) : Outcome :=
  CompaniesHouse.sendRequest oracle c tr "GET"
    [some APIpaths.company, some company_number,
     some APIpaths.persons_with_significant_control,
     some APIpaths.legal_person, some psc_id] []

def CompaniesHouse.get_legal_person_beneficial_owner
    (oracle : Request → Response) (c : CompaniesHouse) (tr : List Request)
    (company_number psc_id : String) : Outcome :=
  CompaniesHouse.sendRequest oracle c tr "GET"
    [some APIpaths.company, some company_number,
     some APIpaths.persons_with_significant_control,
     some APIpaths.legal_person_beneficial_owner, some psc_id] []

def CompaniesHouse.get_individual_person_with_significant_control
    (oracle : Request → Response) (c : CompaniesHouse) (tr : List Request)
    (company_number psc_id : String) : Outcome :=
  CompaniesHouse.sendRequest oracle c tr "GET"
    [some APIpaths.company, some company_number,
     some APIpaths.persons_with_significant_control,
     some APIpaths.individual, some psc_id] []

def CompaniesHouse.get_individual_beneficial_owner
    (oracle : Request → Response) (c : CompaniesHouse) (tr : List Request)
    (company_number psc_id : String) : Outcome :=
  CompaniesHouse.sendRequest oracle c tr "GET"
    [some APIpaths.company, some company_number,
     some APIpaths.persons_with_significant_control,
     some APIpaths.individual_beneficial_owner, some psc_id] []

def CompaniesHouse.get_corporate_entity_with_significant_control
    (oracle : Request → Response) (c : CompaniesHouse) (tr : List Request)
    (company_number psc_id : String) : Outcome :=
  CompaniesHouse.sendRequest oracle c tr "GET"
    [some APIpaths.company, some company_number,
     some APIpaths.persons_with_significant_control,
     some APIpaths.corporate_entity, some psc_id] []

def CompaniesHouse.get_corporate_entity_beneficial_owner
    (oracle : Request → Response) (c : CompaniesHouse) (tr : List Request)
    (company_number psc_id : String) : Outcome :=
  CompaniesHouse.sendRequest oracle c tr "GET"
    [some APIpaths.company, some company_number,
     some APIpaths.persons_with_significant_control,
     some APIpaths.corporate_entity_beneficial_owner, some psc_id] []

/-- Specification-side URL builder, written from the spec's words: start from
the host and, for each segment in the given order, append `"/" + segment` when
the segment is present and skip it entirely when it is absent.  To be compared
with `joinedUrl`, the builder translated from `__send_request`. -/
def specUrl : String → List (Option String) → String
  | acc, [] => acc
  | acc, none :: rest => specUrl acc rest
  | acc, some s :: rest => specUrl (acc ++ "/" ++ s) rest

/-- Splits a character list at every slash; used to read path segments back
out of a concrete URL. -/
def splitSlash : List Char → List Char → List (List Char)
  | [], acc => [acc.reverse]
  | c :: rest, acc =>
    if c = '/' then acc.reverse :: splitSlash rest [] else splitSlash rest (c :: acc)

/-- The slash-delimited segments of a URL. -/
def urlSegments (url : String) : List String :=
  (splitSlash url.data []).map (fun cs => String.mk cs)

/-- The slash-delimited segments of every URL a call issued. -/
def outcomeSegments (o : Outcome) : List String :=
  (o.trace.map (fun r => urlSegments r.url)).flatten

theorem string_append_assoc (a b c : String) : a ++ b ++ c = a ++ (b ++ c) := by
  apply String.ext
  simp [String.data_append]

theorem string_join_cons (a : String) (l : List String) :
    String.join (a :: l) = a ++ String.join l := by
  apply String.ext
  simp [String.data_append]

theorem joinedUrl_nil (h : String) : joinedUrl h [] = h := by
  simp [joinedUrl, String.join]

theorem joinedUrl_none_cons (h : String) (res : List (Option String)) :
    joinedUrl h (none :: res) = joinedUrl h res := by
  simp [joinedUrl]

theorem joinedUrl_some_cons (h s : String) (res : List (Option String)) :
    joinedUrl h (some s :: res) = joinedUrl (h ++ "/" ++ s) res := by
  simp [joinedUrl, List.filterMap_cons, string_join_cons, string_append_assoc]

/-- The URL built by `__send_request` coincides with the spec's recursive
description of it. -/
theorem joinedUrl_eq_specUrl (h : String) (res : List (Option String)) :
    joinedUrl h res = specUrl h res := by
  induction res generalizing h with
  | nil => rw [joinedUrl_nil]; rfl
  | cons r rest ih =>
    cases r with
    | none => rw [joinedUrl_none_cons, ih]; rfl
    | some s => rw [joinedUrl_some_cons, ih]; rfl

/-- Behaviour of the dispatch routine when the host is set. -/
theorem sendRequest_host_some (oracle : Request → Response) (c : CompaniesHouse)
    (h : String) (tr : List Request) (rt : String) (res : List (Option String))
    (params : List (String × Option PyVal)) (hh : c.host = some h) :
    CompaniesHouse.sendRequest oracle c tr rt res params =
      Outcome.mk c (tr ++ [Request.mk rt (joinedUrl h res) c.headers params])
        (Except.ok (oracle (Request.mk rt (joinedUrl h res) c.headers params))) := by
  simp [CompaniesHouse.sendRequest, hh]

/-- Fixtures used by the concrete witnesses. -/
def testResp : Response := Response.mk 200 [] "body"

def testOracle : Request → Response := fun _ => testResp

def testClient : CompaniesHouse :=
  CompaniesHouse.mk (some "H") (some "K") [("Authorization", "K")]

def testEnv : Env := Env.mk (some "H") (some "K")

theorem lit_company_slash : ("/company/" : String) = "/" ++ "company" ++ "/" := by decide

theorem lit_charges_slash : ("/charges/" : String) = "/" ++ "charges" ++ "/" := by decide

theorem lit_pwsc_slash : ("/persons-with-significant-control/" : String)
    = "/" ++ "persons-with-significant-control" ++ "/" := by decide

/-- C1: for every call to `__send_request` on a client whose host is set, the
constructed request URL is the host followed by `"/" + segment` for each
non-None segment in the given order, and a None segment is skipped entirely
rather than inserted as an empty segment. -/
theorem claim_C1_dispatch_url (oracle : Request → Response) (c : CompaniesHouse)
    (h : String) (tr : List Request) (rt : String) (res : List (Option String))
    (params : List (String × Option PyVal)) (hh : c.host = some h) :
    (CompaniesHouse.sendRequest oracle c tr rt res params).trace
        = tr ++ [Request.mk rt (specUrl h res) c.headers params] ∧
      CompaniesHouse.sendRequest oracle c tr rt (none :: res) params
        = CompaniesHouse.sendRequest oracle c tr rt res params := by
  constructor
  · rw [sendRequest_host_some oracle c h tr rt res params hh, joinedUrl_eq_specUrl]
  · rw [sendRequest_host_some oracle c h tr rt (none :: res) params hh,
      sendRequest_host_some oracle c h tr rt res params hh, joinedUrl_none_cons]

theorem claim_C1_dispatch_url_witness :
    (CompaniesHouse.sendRequest testOracle testClient [] "GET"
          [some "company", none, some "00006400"] []).trace
        = [] ++ [Request.mk "GET" (specUrl "H" [some "company", none, some "00006400"])
            testClient.headers []] ∧
      CompaniesHouse.sendRequest testOracle testClient [] "GET"
          (none :: [some "company", none, some "00006400"]) []
        = CompaniesHouse.sendRequest testOracle testClient [] "GET"
            [some "company", none, some "00006400"] [] :=
  claim_C1_dispatch_url testOracle testClient "H" [] "GET"
    [some "company", none, some "00006400"] [] rfl

/-- C2: `get_company_charge` duplicates the company-number path segment: the
URL it builds is `host + "/company/" + n + "/" + n + "/charges/" + id`. -/
theorem claim_C2_charge_url_duplicated (oracle : Request → Response)
    (c : CompaniesHouse) (h : String) (tr : List Request)
    (company_number charge_id : String) (hh : c.host = some h) :
    ∃ req, (CompaniesHouse.get_company_charge oracle c tr company_number charge_id).trace
        = tr ++ [req] ∧
      req.url = h ++ "/company/" ++ company_number ++ "/" ++ company_number
        ++ "/charges/" ++ charge_id := by
  refine ⟨Request.mk "GET"
      (joinedUrl h [some APIpaths.company, some company_number, some company_number,
        some APIpaths.charges, some charge_id]) c.headers [], ?_, ?_⟩
  · show (CompaniesHouse.sendRequest oracle c tr "GET"
        [some APIpaths.company, some company_number, some company_number,
         some APIpaths.charges, some charge_id] []).trace = _
    rw [sendRequest_host_some oracle c h tr "GET" _ _ hh]
  · show joinedUrl h [some APIpaths.company, some company_number, some company_number,
        some APIpaths.charges, some charge_id] = _
    rw [joinedUrl_eq_specUrl]
    simp only [specUrl, APIpaths.company, APIpaths.charges]
    rw [lit_company_slash, lit_charges_slash]
    simp [string_append_assoc]

theorem claim_C2_charge_url_duplicated_witness :
    ∃ req, (CompaniesHouse.get_company_charge testOracle testClient []
        "00006400" "ch1").trace = [] ++ [req] ∧
      req.url = "H" ++ "/company/" ++ "00006400" ++ "/" ++ "00006400"
        ++ "/charges/" ++ "ch1" :=
  claim_C2_charge_url_duplicated testOracle testClient "H" [] "00006400" "ch1" rfl

theorem pyTruthy_some (o : Option String) (h : pyTruthy o = true) : ∃ s, o = some s := by
  cases o with
  | none => simp [pyTruthy] at h
  | some s => exact ⟨s, rfl⟩

/-- Inversion of a successful construction: both guards passed and the stored
fields are exactly the two environment reads plus the auth header. -/
theorem init_ok_elim (env : Env) (c : CompaniesHouse)
    (h : CompaniesHouse.init env = Except.ok c) :
    pyTruthy env.host = true ∧ pyTruthy env.api_key = true ∧
      c = CompaniesHouse.mk env.host env.api_key
        [("Authorization", env.api_key.getD "")] := by
  by_cases h1 : pyTruthy env.host = false
  · simp [CompaniesHouse.init, h1] at h
  · by_cases h2 : pyTruthy env.api_key = false
    · simp [CompaniesHouse.init, h1, h2] at h
    · simp only [CompaniesHouse.init, h1, h2, if_false, ite_false] at h
      refine ⟨by simpa using h1, by simpa using h2, ?_⟩
      cases h
      rfl

/-- C3: a key reaches the outgoing query string only if it was supplied with a
non-None value, and `search_companies` with query `q` and no optional
arguments issues one request whose query string is exactly `q=<q>`, with no
`items_per_page` or `start_index` key. -/
theorem claim_C3_unset_params_omitted :
    (∀ (params : List (String × Option PyVal)) (k : String),
        k ∈ queryKeys params → ∃ v, (k, some v) ∈ params) ∧
      ∀ (oracle : Request → Response) (c : CompaniesHouse) (h : String)
        (tr : List Request) (q : String), c.host = some h →
        ∃ req, (CompaniesHouse.search_companies oracle c tr q none none none).trace
            = tr ++ [req] ∧
          queryPairs req.params = [("q", PyVal.vstr q)] ∧
          "items_per_page" ∉ queryKeys req.params ∧
          "start_index" ∉ queryKeys req.params := by
  constructor
  · intro params k hk
    simp only [queryKeys, queryPairs, List.mem_map, List.mem_filterMap] at hk
    obtain ⟨pr, ⟨p, hp, hmap⟩, hfst⟩ := hk
    rw [Option.map_eq_some'] at hmap
    obtain ⟨v, hv2, hpr⟩ := hmap
    refine ⟨v, ?_⟩
    have hp1 : p.1 = k := by rw [← hfst, ← hpr]
    have hpe : p = (k, some v) := by
      cases p
      simp_all
    rw [← hpe]
    exact hp
  · intro oracle c h tr q hh
    refine ⟨Request.mk "GET"
        (joinedUrl h [some APIpaths.search_companies])
        c.headers
        [("q", some (PyVal.vstr q)), ("items_per_page", none),
         ("start_index", none), ("restrictions", none)], ?_, ?_, ?_, ?_⟩
    · show (CompaniesHouse.sendRequest oracle c tr "GET"
          [some APIpaths.search_companies]
          [("q", some (PyVal.vstr q)), ("items_per_page", none),
           ("start_index", none), ("restrictions", none)]).trace = _
      rw [sendRequest_host_some oracle c h tr "GET" _ _ hh]
    · simp [queryPairs]
    · simp [queryKeys, queryPairs]
    · simp [queryKeys, queryPairs]

theorem claim_C3_unset_params_omitted_witness :
    ∃ req, (CompaniesHouse.search_companies testOracle testClient []
        "Swishfund" none none none).trace = [] ++ [req] ∧
      queryPairs req.params = [("q", PyVal.vstr "Swishfund")] ∧
      "items_per_page" ∉ queryKeys req.params ∧
      "start_index" ∉ queryKeys req.params :=
  claim_C3_unset_params_omitted.2 testOracle testClient "H" [] "Swishfund" rfl

/-- C4: construction fails with a ValueError whenever the host variable or the
key variable is unset or empty, and no client object is returned. -/
theorem claim_C4_init_rejects_missing_config (env : Env)
    (hy : env.host = none ∨ env.host = some "" ∨
      env.api_key = none ∨ env.api_key = some "") :
    (∃ msg, CompaniesHouse.init env = Except.error msg) ∧
      ∀ c, CompaniesHouse.init env ≠ Except.ok c := by
  by_cases h1 : pyTruthy env.host = false
  · exact ⟨⟨"KVK_HOST is not set", by simp [CompaniesHouse.init, h1]⟩,
      fun c => by simp [CompaniesHouse.init, h1]⟩
  · have h2 : pyTruthy env.api_key = false := by
      rcases hy with hv | hv | hv | hv
      · exact absurd (by rw [hv]; rfl) h1
      · exact absurd (by rw [hv]; rfl) h1
      · rw [hv]; rfl
      · rw [hv]; rfl
    exact ⟨⟨"KVK_APIKEY is not set", by simp [CompaniesHouse.init, h1, h2]⟩,
      fun c => by simp [CompaniesHouse.init, h1, h2]⟩

theorem claim_C4_init_rejects_missing_config_witness :
    (∃ msg, CompaniesHouse.init (Env.mk none (some "K")) = Except.error msg) ∧
      ∀ c, CompaniesHouse.init (Env.mk none (some "K")) ≠ Except.ok c :=
  claim_C4_init_rejects_missing_config (Env.mk none (some "K")) (Or.inl rfl)

/-- C9: on any client that completed construction, the `HOST is not set` guard
in the dispatch routine is unreachable: every dispatch returns a response. -/
theorem claim_C9_host_guard_unreachable (env : Env) (c : CompaniesHouse)
    (hc : CompaniesHouse.init env = Except.ok c) (oracle : Request → Response)
    (tr : List Request) (rt : String) (res : List (Option String))
    (params : List (String × Option PyVal)) :
    ∃ resp, (CompaniesHouse.sendRequest oracle c tr rt res params).result
      = Except.ok resp := by
  obtain ⟨hhost, hkey, hcc⟩ := init_ok_elim env c hc
  obtain ⟨h, hsome⟩ := pyTruthy_some env.host hhost
  have hch : c.host = some h := by rw [hcc]; exact hsome
  exact ⟨_, by rw [sendRequest_host_some oracle c h tr rt res params hch]⟩

theorem claim_C9_host_guard_unreachable_witness :
    ∃ resp, (CompaniesHouse.sendRequest testOracle testClient [] "GET"
      [some "company"] []).result = Except.ok resp :=
  claim_C9_host_guard_unreachable testEnv testClient rfl testOracle
    [] "GET" [some "company"] []

/-- The params dictionary `advanced_company_search` builds when only
`company_name_includes` is supplied, with value `"Swishfund"`. -/
def advParamsSwishfund : List (String × Option PyVal) :=
  [("company_name_includes", some (PyVal.vstr "Swishfund")),
   ("company_name_excludes", none), ("company_status", none),
   ("company_subtype", none), ("company_type", none),
   ("dissolved_from", none), ("dissolved_to", none),
   ("incorporated_from", none), ("incorporated_to", none),
   ("location", none), ("sic_codes", none), ("size", none),
   ("start_index", none)]

/-- C7: `advanced_company_search` with only `company_name_includes` set issues
one request whose query string holds exactly that one pair, every one of the
twelve other keys being absent. -/
theorem claim_C7_advanced_search_single_filter (oracle : Request → Response)
    (c : CompaniesHouse) (h : String) (tr : List Request) (hh : c.host = some h) :
    ∃ req, (CompaniesHouse.advanced_company_search oracle c tr (some "Swishfund")
        none none none none none none none none none none none none).trace
        = tr ++ [req] ∧
      queryPairs req.params = [("company_name_includes", PyVal.vstr "Swishfund")] ∧
      queryKeys req.params = ["company_name_includes"] ∧
      "company_name_excludes" ∉ queryKeys req.params ∧
      "company_status" ∉ queryKeys req.params ∧
      "company_subtype" ∉ queryKeys req.params ∧
      "company_type" ∉ queryKeys req.params ∧
      "dissolved_from" ∉ queryKeys req.params ∧
      "dissolved_to" ∉ queryKeys req.params ∧
      "incorporated_from" ∉ queryKeys req.params ∧
      "incorporated_to" ∉ queryKeys req.params ∧
      "location" ∉ queryKeys req.params ∧
      "sic_codes" ∉ queryKeys req.params ∧
      "size" ∉ queryKeys req.params ∧
      "start_index" ∉ queryKeys req.params := by
  refine ⟨Request.mk "GET"
      (joinedUrl h [some APIpaths.advanced_company_search])
      c.headers advParamsSwishfund, ?_,
    show queryPairs advParamsSwishfund
        = [("company_name_includes", PyVal.vstr "Swishfund")] by decide,
    show queryKeys advParamsSwishfund = ["company_name_includes"] by decide,
    show "company_name_excludes" ∉ queryKeys advParamsSwishfund by decide,
    show "company_status" ∉ queryKeys advParamsSwishfund by decide,
    show "company_subtype" ∉ queryKeys advParamsSwishfund by decide,
    show "company_type" ∉ queryKeys advParamsSwishfund by decide,
    show "dissolved_from" ∉ queryKeys advParamsSwishfund by decide,
    show "dissolved_to" ∉ queryKeys advParamsSwishfund by decide,
    show "incorporated_from" ∉ queryKeys advParamsSwishfund by decide,
    show "incorporated_to" ∉ queryKeys advParamsSwishfund by decide,
    show "location" ∉ queryKeys advParamsSwishfund by decide,
    show "sic_codes" ∉ queryKeys advParamsSwishfund by decide,
    show "size" ∉ queryKeys advParamsSwishfund by decide,
    show "start_index" ∉ queryKeys advParamsSwishfund by decide⟩
  show (CompaniesHouse.sendRequest oracle c tr "GET"
      [some APIpaths.advanced_company_search] advParamsSwishfund).trace = _
  rw [sendRequest_host_some oracle c h tr "GET" _ _ hh]

theorem claim_C7_advanced_search_single_filter_witness :
    ∃ req, (CompaniesHouse.advanced_company_search testOracle testClient []
        (some "Swishfund") none none none none none none none none none none
        none none).trace = [] ++ [req] ∧
      queryPairs req.params = [("company_name_includes", PyVal.vstr "Swishfund")] ∧
      queryKeys req.params = ["company_name_includes"] ∧
      "company_name_excludes" ∉ queryKeys req.params ∧
      "company_status" ∉ queryKeys req.params ∧
      "company_subtype" ∉ queryKeys req.params ∧
      "company_type" ∉ queryKeys req.params ∧
      "dissolved_from" ∉ queryKeys req.params ∧
      "dissolved_to" ∉ queryKeys req.params ∧
      "incorporated_from" ∉ queryKeys req.params ∧
      "incorporated_to" ∉ queryKeys req.params ∧
      "location" ∉ queryKeys req.params ∧
      "sic_codes" ∉ queryKeys req.params ∧
      "size" ∉ queryKeys req.params ∧
      "start_index" ∉ queryKeys req.params :=
  claim_C7_advanced_search_single_filter testOracle testClient "H" [] rfl

/-- Proposition: the call returned, unchanged, the transport's response to
some request — no status-code branching, no exception. -/
def ReturnsRaw (oracle : Request → Response) (o : Outcome) : Prop :=
  ∃ req, o.result = Except.ok (oracle req)

/-- Proposition: the call issued exactly one request beyond the prior log, a
GET carrying the given Authorization header. -/
def OneGetWith (k : String) (tr : List Request) (o : Outcome) : Prop :=
  ∃ req, o.trace = tr ++ [req] ∧ req.method = "GET" ∧
    req.headers = [("Authorization", k)]

/-- Proposition: the call left the client unchanged and appended exactly the
requests it would issue from an empty log, with the same return value — the
call neither mutates state nor depends on the request history. -/
def StatelessCall (c : CompaniesHouse) (tr : List Request)
    (o oEmpty : Outcome) : Prop :=
  o.client = c ∧ o.trace = tr ++ oEmpty.trace ∧ o.result = oEmpty.result

theorem sendRequest_returnsRaw (oracle : Request → Response) (c : CompaniesHouse)
    (h : String) (tr : List Request) (rt : String) (res : List (Option String))
    (params : List (String × Option PyVal)) (hh : c.host = some h) :
    ReturnsRaw oracle (CompaniesHouse.sendRequest oracle c tr rt res params) :=
  ⟨_, by rw [sendRequest_host_some oracle c h tr rt res params hh]⟩

theorem sendRequest_oneGet (oracle : Request → Response) (c : CompaniesHouse)
    (h k : String) (tr : List Request) (res : List (Option String))
    (params : List (String × Option PyVal)) (hh : c.host = some h)
    (hk : c.headers = [("Authorization", k)]) :
    OneGetWith k tr (CompaniesHouse.sendRequest oracle c tr "GET" res params) := by
  refine ⟨Request.mk "GET" (joinedUrl h res) c.headers params, ?_, rfl, hk⟩
  rw [sendRequest_host_some oracle c h tr "GET" res params hh]

theorem sendRequest_stateless (oracle : Request → Response) (c : CompaniesHouse)
    (tr : List Request) (rt : String) (res : List (Option String))
    (params : List (String × Option PyVal)) :
    StatelessCall c tr (CompaniesHouse.sendRequest oracle c tr rt res params)
      (CompaniesHouse.sendRequest oracle c [] rt res params) := by
  cases hh : c.host with
  | none => simp [StatelessCall, CompaniesHouse.sendRequest, hh]
  | some h => simp [StatelessCall, CompaniesHouse.sendRequest, hh]

/-- C5: every public endpoint method, on a client whose host is set, returns
the transport's response unchanged for an arbitrary transport — so for any
status code, 2xx or not — and never raises or branches on the status code. -/
theorem claim_C5_raw_response_passthrough (oracle : Request → Response)
    (c : CompaniesHouse) (h : String) (tr : List Request) (hh : c.host = some h) :
    (∀ a : String, ReturnsRaw oracle (CompaniesHouse.get_company_profile oracle c tr a)) ∧
    (∀ (p1 p2 p3 p4 p5 p6 p7 p8 p9 p10 p11 : Option String) (z1 z2 : Option Int),
      ReturnsRaw oracle (CompaniesHouse.advanced_company_search oracle c tr
        p1 p2 p3 p4 p5 p6 p7 p8 p9 p10 p11 z1 z2)) ∧
    (∀ (a : String) (z1 z2 : Option Int),
      ReturnsRaw oracle (CompaniesHouse.search_all oracle c tr a z1 z2)) ∧
    (∀ (a : String) (z1 z2 : Option Int) (r : Option String),
      ReturnsRaw oracle (CompaniesHouse.search_companies oracle c tr a z1 z2 r)) ∧
    (∀ (a : String) (z1 z2 : Option Int),
      ReturnsRaw oracle (CompaniesHouse.search_officers oracle c tr a z1 z2)) ∧
    (∀ (a : String) (z1 z2 : Option Int),
      ReturnsRaw oracle (CompaniesHouse.search_disqualified_officers oracle c tr a z1 z2)) ∧
    (∀ (a : String) (p1 p2 p3 : Option String),
      ReturnsRaw oracle (CompaniesHouse.search_companies_alphabetically oracle c tr a p1 p2 p3)) ∧
    (∀ (a b : String) (p1 p2 p3 : Option String) (z1 : Option Int),
      ReturnsRaw oracle (CompaniesHouse.search_dissolved_companies oracle c tr a b p1 p2 p3 z1)) ∧
    (∀ (a : String) (z1 : Option Int) (p1 p2 : Option String) (z2 : Option Int)
      (p3 : Option String),
      ReturnsRaw oracle (CompaniesHouse.get_officers oracle c tr a z1 p1 p2 z2 p3)) ∧
    (∀ a b d : String,
      ReturnsRaw oracle (CompaniesHouse.get_company_officer_appointment oracle c tr a b d)) ∧
    (∀ a : String, ReturnsRaw oracle (CompaniesHouse.get_company_registers oracle c tr a)) ∧
    (∀ a : String, ReturnsRaw oracle (CompaniesHouse.get_comapany_charges oracle c tr a)) ∧
    (∀ a b : String, ReturnsRaw oracle (CompaniesHouse.get_company_charge oracle c tr a b)) ∧
    (∀ (a : String) (p1 : Option String) (z1 z2 : Option Int),
      ReturnsRaw oracle (CompaniesHouse.get_company_filing_history oracle c tr a p1 z1 z2)) ∧
    (∀ a b : String,
      ReturnsRaw oracle (CompaniesHouse.get_company_filing_history_item oracle c tr a b)) ∧
    (∀ a : String,
      ReturnsRaw oracle (CompaniesHouse.get_company_insolvency_information oracle c tr a)) ∧
    (∀ a : String,
      ReturnsRaw oracle (CompaniesHouse.get_company_exemptions_information oracle c tr a)) ∧
    (∀ a : String,
      ReturnsRaw oracle (CompaniesHouse.get_cooporate_officer_disqualifications oracle c tr a)) ∧
    (∀ a : String,
      ReturnsRaw oracle (CompaniesHouse.get_natural_officer_disqualifications oracle c tr a)) ∧
    (∀ (a : String) (z1 z2 : Option Int),
      ReturnsRaw oracle (CompaniesHouse.get_officer_appointments oracle c tr a z1 z2)) ∧
    (∀ a : String,
      ReturnsRaw oracle (CompaniesHouse.get_company_uk_enstablishment oracle c tr a)) ∧
    (∀ (a : String) (p1 p2 p3 : Option String),
      ReturnsRaw oracle (CompaniesHouse.get_persons_with_significant_control oracle c tr a p1 p2 p3)) ∧
    (∀ (a : String) (p1 p2 p3 : Option String),
      ReturnsRaw oracle
        (CompaniesHouse.get_persons_with_significant_control_statements oracle c tr a p1 p2 p3)) ∧
    (∀ a b : String,
      ReturnsRaw oracle
        (CompaniesHouse.get_the_super_secure_person_with_significant_control oracle c tr a b)) ∧
    (∀ a b : String,
      ReturnsRaw oracle (CompaniesHouse.get_the_super_secure_beneficial_owner oracle c tr a b)) ∧
    (∀ a b : String,
      ReturnsRaw oracle
        (CompaniesHouse.get_person_with_significant_control_statement oracle c tr a b)) ∧
    (∀ a b : String,
      ReturnsRaw oracle
        (CompaniesHouse.get_legal_person_with_significant_control oracle c tr a b)) ∧
    (∀ a b : String,
      ReturnsRaw oracle (CompaniesHouse.get_legal_person_beneficial_owner oracle c tr a b)) ∧
    (∀ a b : String,
      ReturnsRaw oracle
        (CompaniesHouse.get_individual_person_with_significant_control oracle c tr a b)) ∧
    (∀ a b : String,
      ReturnsRaw oracle (CompaniesHouse.get_individual_beneficial_owner oracle c tr a b)) ∧
    (∀ a b : String,
      ReturnsRaw oracle
        (CompaniesHouse.get_corporate_entity_with_significant_control oracle c tr a b)) ∧
    (∀ a b : String,
      ReturnsRaw oracle (CompaniesHouse.get_corporate_entity_beneficial_owner oracle c tr a b)) := by
  refine ⟨?_, ?_, ?_, ?_, ?_, ?_, ?_, ?_, ?_, ?_, ?_, ?_, ?_, ?_, ?_, ?_, ?_,
    ?_, ?_, ?_, ?_, ?_, ?_, ?_, ?_, ?_, ?_, ?_, ?_, ?_, ?_, ?_⟩ <;>
    (intros; exact sendRequest_returnsRaw oracle c h tr _ _ _ hh)

theorem claim_C5_raw_response_passthrough_witness :
    ReturnsRaw testOracle
      (CompaniesHouse.get_company_profile testOracle testClient [] "00006400") :=
  (claim_C5_raw_response_passthrough testOracle testClient "H" [] rfl).1 "00006400"

/-- C6: on a successfully constructed client, every public endpoint method
issues exactly one HTTP request, always a GET, always carrying the header
`Authorization` set to the API key read at construction. -/
theorem claim_C6_one_get_with_auth (env : Env) (k : String) (c : CompaniesHouse)
    (oracle : Request → Response) (tr : List Request)
    (hkey : env.api_key = some k) (hc : CompaniesHouse.init env = Except.ok c) :
    (∀ a : String, OneGetWith k tr (CompaniesHouse.get_company_profile oracle c tr a)) ∧
    (∀ (p1 p2 p3 p4 p5 p6 p7 p8 p9 p10 p11 : Option String) (z1 z2 : Option Int),
      OneGetWith k tr (CompaniesHouse.advanced_company_search oracle c tr
        p1 p2 p3 p4 p5 p6 p7 p8 p9 p10 p11 z1 z2)) ∧
    (∀ (a : String) (z1 z2 : Option Int),
      OneGetWith k tr (CompaniesHouse.search_all oracle c tr a z1 z2)) ∧
    (∀ (a : String) (z1 z2 : Option Int) (r : Option String),
      OneGetWith k tr (CompaniesHouse.search_companies oracle c tr a z1 z2 r)) ∧
    (∀ (a : String) (z1 z2 : Option Int),
      OneGetWith k tr (CompaniesHouse.search_officers oracle c tr a z1 z2)) ∧
    (∀ (a : String) (z1 z2 : Option Int),
      OneGetWith k tr (CompaniesHouse.search_disqualified_officers oracle c tr a z1 z2)) ∧
    (∀ (a : String) (p1 p2 p3 : Option String),
      OneGetWith k tr (CompaniesHouse.search_companies_alphabetically oracle c tr a p1 p2 p3)) ∧
    (∀ (a b : String) (p1 p2 p3 : Option String) (z1 : Option Int),
      OneGetWith k tr (CompaniesHouse.search_dissolved_companies oracle c tr a b p1 p2 p3 z1)) ∧
    (∀ (a : String) (z1 : Option Int) (p1 p2 : Option String) (z2 : Option Int)
      (p3 : Option String),
      OneGetWith k tr (CompaniesHouse.get_officers oracle c tr a z1 p1 p2 z2 p3)) ∧
    (∀ a b d : String,
      OneGetWith k tr (CompaniesHouse.get_company_officer_appointment oracle c tr a b d)) ∧
    (∀ a : String, OneGetWith k tr (CompaniesHouse.get_company_registers oracle c tr a)) ∧
    (∀ a : String, OneGetWith k tr (CompaniesHouse.get_comapany_charges oracle c tr a)) ∧
    (∀ a b : String, OneGetWith k tr (CompaniesHouse.get_company_charge oracle c tr a b)) ∧
    (∀ (a : String) (p1 : Option String) (z1 z2 : Option Int),
      OneGetWith k tr (CompaniesHouse.get_company_filing_history oracle c tr a p1 z1 z2)) ∧
    (∀ a b : String,
      OneGetWith k tr (CompaniesHouse.get_company_filing_history_item oracle c tr a b)) ∧
    (∀ a : String,
      OneGetWith k tr (CompaniesHouse.get_company_insolvency_information oracle c tr a)) ∧
    (∀ a : String,
      OneGetWith k tr (CompaniesHouse.get_company_exemptions_information oracle c tr a)) ∧
    (∀ a : String,
      OneGetWith k tr (CompaniesHouse.get_cooporate_officer_disqualifications oracle c tr a)) ∧
    (∀ a : String,
      OneGetWith k tr (CompaniesHouse.get_natural_officer_disqualifications oracle c tr a)) ∧
    (∀ (a : String) (z1 z2 : Option Int),
      OneGetWith k tr (CompaniesHouse.get_officer_appointments oracle c tr a z1 z2)) ∧
    (∀ a : String,
      OneGetWith k tr (CompaniesHouse.get_company_uk_enstablishment oracle c tr a)) ∧
    (∀ (a : String) (p1 p2 p3 : Option String),
      OneGetWith k tr (CompaniesHouse.get_persons_with_significant_control oracle c tr a p1 p2 p3)) ∧
    (∀ (a : String) (p1 p2 p3 : Option String),
      OneGetWith k tr
        (CompaniesHouse.get_persons_with_significant_control_statements oracle c tr a p1 p2 p3)) ∧
    (∀ a b : String,
      OneGetWith k tr
        (CompaniesHouse.get_the_super_secure_person_with_significant_control oracle c tr a b)) ∧
    (∀ a b : String,
      OneGetWith k tr (CompaniesHouse.get_the_super_secure_beneficial_owner oracle c tr a b)) ∧
    (∀ a b : String,
      OneGetWith k tr
        (CompaniesHouse.get_person_with_significant_control_statement oracle c tr a b)) ∧
    (∀ a b : String,
      OneGetWith k tr
        (CompaniesHouse.get_legal_person_with_significant_control oracle c tr a b)) ∧
    (∀ a b : String,
      OneGetWith k tr (CompaniesHouse.get_legal_person_beneficial_owner oracle c tr a b)) ∧
    (∀ a b : String,
      OneGetWith k tr
        (CompaniesHouse.get_individual_person_with_significant_control oracle c tr a b)) ∧
    (∀ a b : String,
      OneGetWith k tr (CompaniesHouse.get_individual_beneficial_owner oracle c tr a b)) ∧
    (∀ a b : String,
      OneGetWith k tr
        (CompaniesHouse.get_corporate_entity_with_significant_control oracle c tr a b)) ∧
    (∀ a b : String,
      OneGetWith k tr (CompaniesHouse.get_corporate_entity_beneficial_owner oracle c tr a b)) := by
  obtain ⟨hhost, hka, hcc⟩ := init_ok_elim env c hc
  obtain ⟨h, hsome⟩ := pyTruthy_some env.host hhost
  have hh : c.host = some h := by rw [hcc]; exact hsome
  have hk : c.headers = [("Authorization", k)] := by rw [hcc]; simp [hkey]
  refine ⟨?_, ?_, ?_, ?_, ?_, ?_, ?_, ?_, ?_, ?_, ?_, ?_, ?_, ?_, ?_, ?_, ?_,
    ?_, ?_, ?_, ?_, ?_, ?_, ?_, ?_, ?_, ?_, ?_, ?_, ?_, ?_, ?_⟩ <;>
    (intros; exact sendRequest_oneGet oracle c h k tr _ _ hh hk)

theorem claim_C6_one_get_with_auth_witness :
    OneGetWith "K" []
      (CompaniesHouse.get_company_profile testOracle testClient [] "00006400") :=
  (claim_C6_one_get_with_auth testEnv "K" testClient testOracle [] rfl rfl).1
    "00006400"

/-- C8: every public endpoint method leaves the client completely unchanged
(host, api_key, headers), and the requests it issues do not depend on the
request history: the new log is the old log plus exactly what the same call
would issue from an empty log, with the same return value. -/
theorem claim_C8_no_mutation_no_history (oracle : Request → Response)
    (c : CompaniesHouse) (tr : List Request) :
    (∀ a : String, StatelessCall c tr (CompaniesHouse.get_company_profile oracle c tr a)
      (CompaniesHouse.get_company_profile oracle c [] a)) ∧
    (∀ (p1 p2 p3 p4 p5 p6 p7 p8 p9 p10 p11 : Option String) (z1 z2 : Option Int),
      StatelessCall c tr
        (CompaniesHouse.advanced_company_search oracle c tr p1 p2 p3 p4 p5 p6 p7 p8 p9 p10 p11 z1 z2)
        (CompaniesHouse.advanced_company_search oracle c [] p1 p2 p3 p4 p5 p6 p7 p8 p9 p10 p11 z1 z2)) ∧
    (∀ (a : String) (z1 z2 : Option Int),
      StatelessCall c tr (CompaniesHouse.search_all oracle c tr a z1 z2)
        (CompaniesHouse.search_all oracle c [] a z1 z2)) ∧
    (∀ (a : String) (z1 z2 : Option Int) (r : Option String),
      StatelessCall c tr (CompaniesHouse.search_companies oracle c tr a z1 z2 r)
        (CompaniesHouse.search_companies oracle c [] a z1 z2 r)) ∧
    (∀ (a : String) (z1 z2 : Option Int),
      StatelessCall c tr (CompaniesHouse.search_officers oracle c tr a z1 z2)
        (CompaniesHouse.search_officers oracle c [] a z1 z2)) ∧
    (∀ (a : String) (z1 z2 : Option Int),
      StatelessCall c tr (CompaniesHouse.search_disqualified_officers oracle c tr a z1 z2)
        (CompaniesHouse.search_disqualified_officers oracle c [] a z1 z2)) ∧
    (∀ (a : String) (p1 p2 p3 : Option String),
      StatelessCall c tr (CompaniesHouse.search_companies_alphabetically oracle c tr a p1 p2 p3)
        (CompaniesHouse.search_companies_alphabetically oracle c [] a p1 p2 p3)) ∧
    (∀ (a b : String) (p1 p2 p3 : Option String) (z1 : Option Int),
      StatelessCall c tr (CompaniesHouse.search_dissolved_companies oracle c tr a b p1 p2 p3 z1)
        (CompaniesHouse.search_dissolved_companies oracle c [] a b p1 p2 p3 z1)) ∧
    (∀ (a : String) (z1 : Option Int) (p1 p2 : Option String) (z2 : Option Int)
      (p3 : Option String),
      StatelessCall c tr (CompaniesHouse.get_officers oracle c tr a z1 p1 p2 z2 p3)
        (CompaniesHouse.get_officers oracle c [] a z1 p1 p2 z2 p3)) ∧
    (∀ a b d : String,
      StatelessCall c tr (CompaniesHouse.get_company_officer_appointment oracle c tr a b d)
        (CompaniesHouse.get_company_officer_appointment oracle c [] a b d)) ∧
    (∀ a : String, StatelessCall c tr (CompaniesHouse.get_company_registers oracle c tr a)
      (CompaniesHouse.get_company_registers oracle c [] a)) ∧
    (∀ a : String, StatelessCall c tr (CompaniesHouse.get_comapany_charges oracle c tr a)
      (CompaniesHouse.get_comapany_charges oracle c [] a)) ∧
    (∀ a b : String, StatelessCall c tr (CompaniesHouse.get_company_charge oracle c tr a b)
      (CompaniesHouse.get_company_charge oracle c [] a b)) ∧
    (∀ (a : String) (p1 : Option String) (z1 z2 : Option Int),
      StatelessCall c tr (CompaniesHouse.get_company_filing_history oracle c tr a p1 z1 z2)
        (CompaniesHouse.get_company_filing_history oracle c [] a p1 z1 z2)) ∧
    (∀ a b : String,
      StatelessCall c tr (CompaniesHouse.get_company_filing_history_item oracle c tr a b)
        (CompaniesHouse.get_company_filing_history_item oracle c [] a b)) ∧
    (∀ a : String,
      StatelessCall c tr (CompaniesHouse.get_company_insolvency_information oracle c tr a)
        (CompaniesHouse.get_company_insolvency_information oracle c [] a)) ∧
    (∀ a : String,
      StatelessCall c tr (CompaniesHouse.get_company_exemptions_information oracle c tr a)
        (CompaniesHouse.get_company_exemptions_information oracle c [] a)) ∧
    (∀ a : String,
      StatelessCall c tr (CompaniesHouse.get_cooporate_officer_disqualifications oracle c tr a)
        (CompaniesHouse.get_cooporate_officer_disqualifications oracle c [] a)) ∧
    (∀ a : String,
      StatelessCall c tr (CompaniesHouse.get_natural_officer_disqualifications oracle c tr a)
        (CompaniesHouse.get_natural_officer_disqualifications oracle c [] a)) ∧
    (∀ (a : String) (z1 z2 : Option Int),
      StatelessCall c tr (CompaniesHouse.get_officer_appointments oracle c tr a z1 z2)
        (CompaniesHouse.get_officer_appointments oracle c [] a z1 z2)) ∧
    (∀ a : String,
      StatelessCall c tr (CompaniesHouse.get_company_uk_enstablishment oracle c tr a)
        (CompaniesHouse.get_company_uk_enstablishment oracle c [] a)) ∧
    (∀ (a : String) (p1 p2 p3 : Option String),
      StatelessCall c tr
        (CompaniesHouse.get_persons_with_significant_control oracle c tr a p1 p2 p3)
        (CompaniesHouse.get_persons_with_significant_control oracle c [] a p1 p2 p3)) ∧
    (∀ (a : String) (p1 p2 p3 : Option String),
      StatelessCall c tr
        (CompaniesHouse.get_persons_with_significant_control_statements oracle c tr a p1 p2 p3)
        (CompaniesHouse.get_persons_with_significant_control_statements oracle c [] a p1 p2 p3)) ∧
    (∀ a b : String,
      StatelessCall c tr
        (CompaniesHouse.get_the_super_secure_person_with_significant_control oracle c tr a b)
        (CompaniesHouse.get_the_super_secure_person_with_significant_control oracle c [] a b)) ∧
    (∀ a b : String,
      StatelessCall c tr (CompaniesHouse.get_the_super_secure_beneficial_owner oracle c tr a b)
        (CompaniesHouse.get_the_super_secure_beneficial_owner oracle c [] a b)) ∧
    (∀ a b : String,
      StatelessCall c tr
        (CompaniesHouse.get_person_with_significant_control_statement oracle c tr a b)
        (CompaniesHouse.get_person_with_significant_control_statement oracle c [] a b)) ∧
    (∀ a b : String,
      StatelessCall c tr
        (CompaniesHouse.get_legal_person_with_significant_control oracle c tr a b)
        (CompaniesHouse.get_legal_person_with_significant_control oracle c [] a b)) ∧
    (∀ a b : String,
      StatelessCall c tr (CompaniesHouse.get_legal_person_beneficial_owner oracle c tr a b)
        (CompaniesHouse.get_legal_person_beneficial_owner oracle c [] a b)) ∧
    (∀ a b : String,
      StatelessCall c tr
        (CompaniesHouse.get_individual_person_with_significant_control oracle c tr a b)
        (CompaniesHouse.get_individual_person_with_significant_control oracle c [] a b)) ∧
    (∀ a b : String,
      StatelessCall c tr (CompaniesHouse.get_individual_beneficial_owner oracle c tr a b)
        (CompaniesHouse.get_individual_beneficial_owner oracle c [] a b)) ∧
    (∀ a b : String,
      StatelessCall c tr
        (CompaniesHouse.get_corporate_entity_with_significant_control oracle c tr a b)
        (CompaniesHouse.get_corporate_entity_with_significant_control oracle c [] a b)) ∧
    (∀ a b : String,
      StatelessCall c tr (CompaniesHouse.get_corporate_entity_beneficial_owner oracle c tr a b)
        (CompaniesHouse.get_corporate_entity_beneficial_owner oracle c [] a b)) := by
  refine ⟨?_, ?_, ?_, ?_, ?_, ?_, ?_, ?_, ?_, ?_, ?_, ?_, ?_, ?_, ?_, ?_, ?_,
    ?_, ?_, ?_, ?_, ?_, ?_, ?_, ?_, ?_, ?_, ?_, ?_, ?_, ?_, ?_⟩ <;>
    (intros; exact sendRequest_stateless oracle c tr _ _ _)

/-- Every public endpoint method invoked once at a fixed concrete
instantiation (host `"H"`, identifiers `"x"`, `"y"`, `"z"`, every optional
argument absent), used to inspect the full set of URLs the client can build. -/
def allConcreteOutcomes : List Outcome :=
  [CompaniesHouse.get_company_profile testOracle testClient [] "x",
   CompaniesHouse.advanced_company_search testOracle testClient [] none none
     none none none none none none none none none none none,
   CompaniesHouse.search_all testOracle testClient [] "x" none none,
   CompaniesHouse.search_companies testOracle testClient [] "x" none none none,
   CompaniesHouse.search_officers testOracle testClient [] "x" none none,
   CompaniesHouse.search_disqualified_officers testOracle testClient [] "x" none none,
   CompaniesHouse.search_companies_alphabetically testOracle testClient [] "x"
     none none none,
   CompaniesHouse.search_dissolved_companies testOracle testClient [] "x" "x"
     none none none none,
   CompaniesHouse.get_officers testOracle testClient [] "x" none none none none none,
   CompaniesHouse.get_company_officer_appointment testOracle testClient [] "x" "y" "z",
   CompaniesHouse.get_company_registers testOracle testClient [] "x",
   CompaniesHouse.get_comapany_charges testOracle testClient [] "x",
   CompaniesHouse.get_company_charge testOracle testClient [] "x" "y",
   CompaniesHouse.get_company_filing_history testOracle testClient [] "x" none none none,
   CompaniesHouse.get_company_filing_history_item testOracle testClient [] "x" "y",
   CompaniesHouse.get_company_insolvency_information testOracle testClient [] "x",
   CompaniesHouse.get_company_exemptions_information testOracle testClient [] "x",
   CompaniesHouse.get_cooporate_officer_disqualifications testOracle testClient [] "x",
   CompaniesHouse.get_natural_officer_disqualifications testOracle testClient [] "x",
   CompaniesHouse.get_officer_appointments testOracle testClient [] "x" none none,
   CompaniesHouse.get_company_uk_enstablishment testOracle testClient [] "x",
   CompaniesHouse.get_persons_with_significant_control testOracle testClient [] "x"
     none none none,
   CompaniesHouse.get_persons_with_significant_control_statements testOracle
     testClient [] "x" none none none,
   CompaniesHouse.get_the_super_secure_person_with_significant_control testOracle
     testClient [] "x" "y",
   CompaniesHouse.get_the_super_secure_beneficial_owner testOracle testClient [] "x" "y",
   CompaniesHouse.get_person_with_significant_control_statement testOracle
     testClient [] "x" "y",
   CompaniesHouse.get_legal_person_with_significant_control testOracle
     testClient [] "x" "y",
   CompaniesHouse.get_legal_person_beneficial_owner testOracle testClient [] "x" "y",
   CompaniesHouse.get_individual_person_with_significant_control testOracle
     testClient [] "x" "y",
   CompaniesHouse.get_individual_beneficial_owner testOracle testClient [] "x" "y",
   CompaniesHouse.get_corporate_entity_with_significant_control testOracle
     testClient [] "x" "y",
   CompaniesHouse.get_corporate_entity_beneficial_owner testOracle testClient [] "x" "y"]

/-- The path segments of every URL issued across `allConcreteOutcomes`. -/
def allConcreteSegments : List String :=
  (allConcreteOutcomes.map outcomeSegments).flatten

/-- C10: `get_the_super_secure_person_with_significant_control` builds
`host + "/company/" + n + "/persons-with-significant-control/" + id` — it
dispatches on the generic PSC path constant with no `super-secure` segment —
and the `APIpaths.super_secure` constant appears as a path segment in no
method's URL (while the generic PSC segment does appear). -/
theorem claim_C10_super_secure_unused (oracle : Request → Response)
    (c : CompaniesHouse) (h : String) (tr : List Request) (a b : String)
    (hh : c.host = some h) :
    (∃ req, (CompaniesHouse.get_the_super_secure_person_with_significant_control
          oracle c tr a b).trace = tr ++ [req] ∧
        req.url = h ++ "/company/" ++ a ++ "/persons-with-significant-control/" ++ b) ∧
      CompaniesHouse.get_the_super_secure_person_with_significant_control oracle c tr a b
        = CompaniesHouse.sendRequest oracle c tr "GET"
            [some APIpaths.company, some a,
             some APIpaths.persons_with_significant_control, some b] [] ∧
      APIpaths.super_secure ∉ allConcreteSegments ∧
      APIpaths.persons_with_significant_control ∈ allConcreteSegments := by
  refine ⟨⟨Request.mk "GET"
      (joinedUrl h [some APIpaths.company, some a,
        some APIpaths.persons_with_significant_control, some b]) c.headers [],
      ?_, ?_⟩, rfl, by decide, by decide⟩
  · show (CompaniesHouse.sendRequest oracle c tr "GET"
        [some APIpaths.company, some a,
         some APIpaths.persons_with_significant_control, some b] []).trace = _
    rw [sendRequest_host_some oracle c h tr "GET" _ _ hh]
  · show joinedUrl h [some APIpaths.company, some a,
        some APIpaths.persons_with_significant_control, some b] = _
    rw [joinedUrl_eq_specUrl]
    simp only [specUrl, APIpaths.company, APIpaths.persons_with_significant_control]
    rw [lit_company_slash, lit_pwsc_slash]
    simp [string_append_assoc]

theorem claim_C10_super_secure_unused_witness :
    (∃ req, (CompaniesHouse.get_the_super_secure_person_with_significant_control
          testOracle testClient [] "x" "y").trace = [] ++ [req] ∧
        req.url = "H" ++ "/company/" ++ "x"
          ++ "/persons-with-significant-control/" ++ "y") ∧
      CompaniesHouse.get_the_super_secure_person_with_significant_control
          testOracle testClient [] "x" "y"
        = CompaniesHouse.sendRequest testOracle testClient [] "GET"
            [some APIpaths.company, some "x",
             some APIpaths.persons_with_significant_control, some "y"] [] ∧
      APIpaths.super_secure ∉ allConcreteSegments ∧
      APIpaths.persons_with_significant_control ∈ allConcreteSegments :=
  claim_C10_super_secure_unused testOracle testClient "H" [] "x" "y" rfl
